import Mathlib

/-!
Verification development for the govmomi-snippets inventory reporter
(src/connect-via-env-for-vsphere-info-vim25.go).

The program is a single Go main that reads GOVMOMI_URL / GOVMOMI_USERNAME /
GOVMOMI_PASSWORD from the environment, parses the URL, logs in, and for each
of the three object kinds (HostSystem, Datastore, VirtualMachine) creates a
container view, retrieves the summary property, prints a table to standard
output, and destroys the view via a deferred call.

We embed the program shallowly as a pure function from an environment and an
oracle (the outcomes of the external endpoint calls) to the finite trace of
observable events of one run: stdout writes, session login, view creation,
retrieval, view destruction, and the nil-pointer crash that the fall-through
after the nil-URL check produces.  Go int64 arithmetic is modelled on Int
with an explicit two-complement wrap at 2^64.
-/

/-- Two-complement wrap of Go int64 arithmetic: reduce an Int into
[-(2^63), 2^63). -/
def wrap64 (x : Int) : Int := (x + 2 ^ 63) % 2 ^ 64 - 2 ^ 63

/-- The per-host fields of the summary property that the program reads
(hs.Summary.Config.Name, hs.Summary.Hardware.CpuMhz int32,
hs.Summary.Hardware.NumCpuCores int16, hs.Summary.QuickStats.OverallCpuUsage
int32, hs.Summary.Hardware.MemorySize int64,
hs.Summary.QuickStats.OverallMemoryUsage int32). -/
structure HostSummary where
  name : String
  cpuMhz : Int
  numCpuCores : Int
  overallCpuUsage : Int
  memorySize : Int
  overallMemoryUsage : Int
deriving DecidableEq

/-- The per-datastore fields the program reads (ds.Summary.Name,
ds.Summary.Type, ds.Summary.Capacity int64, ds.Summary.FreeSpace int64). -/
structure DatastoreSummary where
  name : String
  type : String
  capacity : Int
  freeSpace : Int
deriving DecidableEq

/-- The per-VM fields the program reads (vm.Summary.Config.Name,
vm.Summary.Config.GuestFullName). -/
structure VmSummary where
  name : String
  guestFullName : String
deriving DecidableEq

/-- Source line 174: totalCPU := int64(CpuMhz) * int64(NumCpuCores). -/
def totalCPU (h : HostSummary) : Int := wrap64 (h.cpuMhz * h.numCpuCores)

/-- Source line 175: freeCPU := int64(totalCPU) - int64(OverallCpuUsage). -/
def freeCPU (h : HostSummary) : Int := wrap64 (totalCPU h - h.overallCpuUsage)

/-- Source lines 176 and 181: int64(OverallMemoryUsage) * 1024 * 1024, the
used memory expressed in bytes. -/
def usedMemBytes (h : HostSummary) : Int := wrap64 (h.overallMemoryUsage * 1024 * 1024)

/-- Source line 176: freeMemory := int64(MemorySize) -
(int64(OverallMemoryUsage) * 1024 * 1024). -/
def freeMemory (h : HostSummary) : Int := wrap64 (h.memorySize - usedMemBytes h)

/-- Modelled from the spec: the byte-unit scaler of the external units
library (units.ByteSize, not part of this repository's sources).  Spec 4.3:
the human-readable form is derived by repeated division by 1024, selecting
the largest unit where the scaled value is at least 1; the spec's examples
fix two-decimal rendering for scaled units (32.00GB, 1.00TB, 512.00GB) and
the smallest-unit form for values below one KB (0B).  The fractional part is
truncated; the spec constrains only exactly-representable examples. -/
def fmt2 (b u : Int) : String :=
  toString (b / u) ++ "." ++
    (if b * 100 / u - b / u * 100 < 10 then "0" ++ toString (b * 100 / u - b / u * 100)
     else toString (b * 100 / u - b / u * 100))

/-- Modelled from the spec: see fmt2.  Unit thresholds are the powers of
1024: KB, MB, GB, TB, PB, EB. -/
def byteSizeString (b : Int) : String :=
  if 2 ^ 60 ≤ b then fmt2 b (2 ^ 60) ++ "EB"
  else if 2 ^ 50 ≤ b then fmt2 b (2 ^ 50) ++ "PB"
  else if 2 ^ 40 ≤ b then fmt2 b (2 ^ 40) ++ "TB"
  else if 2 ^ 30 ≤ b then fmt2 b (2 ^ 30) ++ "GB"
  else if 2 ^ 20 ≤ b then fmt2 b (2 ^ 20) ++ "MB"
  else if 2 ^ 10 ≤ b then fmt2 b (2 ^ 10) ++ "KB"
  else toString b ++ "B"

/-- The seven cells of one host table row, in the order written by source
lines 177-183: name (%s), OverallCpuUsage (%d), totalCPU (%d), freeCPU (%d),
ByteSize(OverallMemoryUsage)*1024*1024 (%s), ByteSize(MemorySize) (%s),
freeMemory (%d). -/
def hostRowCells (h : HostSummary) : List String :=
  [h.name,
   toString h.overallCpuUsage,
   toString (totalCPU h),
   toString (freeCPU h),
   byteSizeString (usedMemBytes h),
   byteSizeString h.memorySize,
   toString (freeMemory h)]

/-- One host row as written to the tab writer: each cell followed by a tab
(the Fprintf at lines 177-183 all end in a tab), then the newline of line
184. -/
def hostRowText (h : HostSummary) : String :=
  String.join ((hostRowCells h).map fun c => c ++ "\t") ++ "\n"

/-- The four cells of one datastore row, source lines 225-228: name, type,
ByteSize(Capacity), ByteSize(FreeSpace). -/
def dsRowCells (d : DatastoreSummary) : List String :=
  [d.name, d.type, byteSizeString d.capacity, byteSizeString d.freeSpace]

/-- One datastore row: four tab-terminated cells then the newline of line
229. -/
def dsRowText (d : DatastoreSummary) : String :=
  String.join ((dsRowCells d).map fun c => c ++ "\t") ++ "\n"

/-- One VM row, source lines 271-272: name with a trailing colon and tab,
then guest full name, tab, newline. -/
def vmRowText (v : VmSummary) : String :=
  v.name ++ ":\t" ++ v.guestFullName ++ "\t\n"

def hostHeaderText : String :=
  "Name:\tUsed CPU:\tTotal CPU:\tFree CPU:\tUsed Memory:\tTotal Memory:\tFree Memory:\t\n"

def dsHeaderText : String := "Name:\tType:\tCapacity:\tFree:\n"

def vmHeaderText : String := "Name:\tGuest Full Name:\t\n"

/-- The stdout text of the host table: title (line 169), separator (line
170), column header (line 171), then one row per retrieved host in slice
order (lines 173-185). -/
def hostTableStrings (hs : List HostSummary) : List String :=
  ["\n*** Host Information ***\n", "------------------------\n\n", hostHeaderText]
    ++ hs.map hostRowText

/-- The stdout text of the datastore table, source lines 219-230. -/
def dsTableStrings (ds : List DatastoreSummary) : List String :=
  ["\n*** Datastore Information ***\n", "------------------------------\n\n", dsHeaderText]
    ++ ds.map dsRowText

/-- The stdout text of the VM table, source lines 265-277; line 275 writes a
final bare newline before the flush. -/
def vmTableStrings (vs : List VmSummary) : List String :=
  ["\n*** VM Information ***\n", "-----------------------\n\n", vmHeaderText]
    ++ vs.map vmRowText ++ ["\n"]

/-- The three environment variables read at startup (source lines 72-74). -/
structure Env where
  url : String
  user : String
  pwd : String
deriving DecidableEq

/-- The parsed endpoint URL after line 105 stored user info on it. -/
structure Url where
  raw : String
  user : String
  password : String
deriving DecidableEq

/-- The session constructed at source lines 112-115: cache.Session with the
URL and Insecure set. -/
structure CacheSession where
  url : Url
  insecure : Bool
deriving DecidableEq

/-- The session the program builds for a given environment: the parsed URL
carrying the credentials (line 105) and Insecure hard-coded to true (line
114). -/
def mkSession (env : Env) : CacheSession :=
  { url := { raw := env.url, user := env.user, password := env.pwd }, insecure := true }

/-- The three object kinds the program iterates over. -/
inductive Kind where
  | host
  | datastore
  | vm
deriving DecidableEq

/-- Observable events of one run.  out is a write to standard output (every
diagnostic and every table goes through fmt to os.Stdout; the program never
writes to standard error).  login is the s.Login call of line 123 carrying
the session it was given.  openScope k records a CreateContainerView call
for kind k that returned successfully; fetch k records the Retrieve call for
kind k; closeScope k records the deferred v.Destroy of the view of kind k.
crash is the nil-pointer dereference that line 105 performs when ParseURL
returned no URL and no error. -/
inductive Event where
  | out (s : String)
  | login (s : CacheSession)
  | openScope (k : Kind)
  | fetch (k : Kind)
  | closeScope (k : Kind)
  | crash
deriving DecidableEq

/-- Outcomes of the external calls of one run, together with the data the
endpoint returns.  parseBad models soap.ParseURL rejecting a nonempty URL
value (for the empty value the library returns no URL and no error, which
the run model handles separately). -/
structure Oracle where
  parseBad : Bool
  parseErrText : String
  loginOk : Bool
  loginErrText : String
  createHostOk : Bool
  createHostErrText : String
  retrieveHostOk : Bool
  retrieveHostErrText : String
  createDsOk : Bool
  createDsErrText : String
  retrieveDsOk : Bool
  retrieveDsErrText : String
  createVmOk : Bool
  createVmErrText : String
  retrieveVmOk : Bool
  retrieveVmErrText : String
  hosts : List HostSummary
  datastores : List DatastoreSummary
  vms : List VmSummary
deriving DecidableEq

/-- The three DEBUG lines printed first (source lines 77-79), one per
environment variable, password included. -/
def debugEvents (env : Env) : List Event :=
  [Event.out ("DEBUG: vc is " ++ env.url ++ "\n"),
   Event.out ("DEBUG: user is " ++ env.user ++ "\n"),
   Event.out ("DEBUG: password is " ++ env.pwd ++ "\n")]

def urlNilText : String := "could not parse URL (environment variables set?)\n"

/-- Output of fmt.Println of line 101 (Println joins its operands with a
space and appends a newline). -/
def parseFailText (o : Oracle) : String :=
  "URL parsing not successful, error %v " ++ o.parseErrText ++ "\n"

/-- Output of fmt.Println of line 126. -/
def loginFailText (o : Oracle) : String :=
  "Log in not successful- could not get vCenter client: %v " ++ o.loginErrText ++ "\n"

def createHostFailText (o : Oracle) : String :=
  "Unable to create Host Container View: error " ++ o.createHostErrText

def retrieveHostFailText (o : Oracle) : String :=
  "Unable to retrieve Host information: error " ++ o.retrieveHostErrText

def createDsFailText (o : Oracle) : String :=
  "Unable to create Datastore Container View: error " ++ o.createDsErrText

def retrieveDsFailText (o : Oracle) : String :=
  "Unable to retrieve Datastore information: error " ++ o.retrieveDsErrText

def createVmFailText (o : Oracle) : String :=
  "Unable to create Virtual Machine Container View: error " ++ o.createVmErrText

def retrieveVmFailText (o : Oracle) : String :=
  "Unable to retrieve VM information: error " ++ o.retrieveVmErrText

def hostTableEvents (hs : List HostSummary) : List Event :=
  (hostTableStrings hs).map Event.out

def dsTableEvents (ds : List DatastoreSummary) : List Event :=
  (dsTableStrings ds).map Event.out

def vmTableEvents (vs : List VmSummary) : List Event :=
  (vmTableStrings vs).map Event.out

/-- The event trace of one run of main.

URL handling follows soap.ParseURL of the external library, modelled from
the spec (absence or unparseable URL is a fatal startup condition): an empty
GOVMOMI_URL yields no URL and no error, so the code prints the line-97
diagnostic, falls through the nil check (that branch has no return) and
crashes dereferencing the nil URL at line 105; a nonempty unparseable value
yields an error, so both the line-97 and line-101 diagnostics print and main
returns.

Each deferred v.Destroy is registered only after its CreateContainerView
succeeded (the defer of line 148 follows the error check of lines 143-146,
likewise lines 200 and 246), and all registered defers run in LIFO order
when main returns, on every return path. -/
def run (env : Env) (o : Oracle) : List Event :=
  debugEvents env ++
  (if env.url = "" then [Event.out urlNilText, Event.crash]
   else if o.parseBad then [Event.out urlNilText, Event.out (parseFailText o)]
   else
    Event.login (mkSession env) ::
    (if o.loginOk = false then [Event.out (loginFailText o)]
     else
      Event.out "Log in successful\n" ::
      (if o.createHostOk = false then [Event.out (createHostFailText o)]
       else
        Event.openScope Kind.host :: Event.fetch Kind.host ::
        (if o.retrieveHostOk = false then
          [Event.out (retrieveHostFailText o), Event.closeScope Kind.host]
         else
          hostTableEvents o.hosts ++
          (if o.createDsOk = false then
            [Event.out (createDsFailText o), Event.closeScope Kind.host]
           else
            Event.openScope Kind.datastore :: Event.fetch Kind.datastore ::
            (if o.retrieveDsOk = false then
              [Event.out (retrieveDsFailText o), Event.closeScope Kind.datastore,
               Event.closeScope Kind.host]
             else
              dsTableEvents o.datastores ++
              (if o.createVmOk = false then
                [Event.out (createVmFailText o), Event.closeScope Kind.datastore,
                 Event.closeScope Kind.host]
               else
                Event.openScope Kind.vm :: Event.fetch Kind.vm ::
                (if o.retrieveVmOk = false then
                  [Event.out (retrieveVmFailText o), Event.closeScope Kind.vm,
                   Event.closeScope Kind.datastore, Event.closeScope Kind.host]
                 else
                  vmTableEvents o.vms ++
                  [Event.closeScope Kind.vm, Event.closeScope Kind.datastore,
                   Event.closeScope Kind.host]))))))))

/-- The standard-output text of a trace, in order. -/
def outputs (tr : List Event) : List String :=
  tr.filterMap fun e => match e with
    | Event.out s => some s
    | _ => none

/-- The reference host of the end-to-end scenario of spec section 8:
name esx01, clockSpeedMHz 2500, cores 4, usedCpuMHz 3000, totalMemoryBytes
34359738368, usedMemoryMiB 8192. -/
def refHost : HostSummary :=
  { name := "esx01", cpuMhz := 2500, numCpuCores := 4, overallCpuUsage := 3000,
    memorySize := 34359738368, overallMemoryUsage := 8192 }

/-- An over-subscribed host (spec section 8): clockSpeed 2000, cores 2, used
CPU 5000, so freeCpu is negative. -/
def overHost : HostSummary :=
  { name := "esx02", cpuMhz := 2000, numCpuCores := 2, overallCpuUsage := 5000,
    memorySize := 1073741824, overallMemoryUsage := 2048 }

theorem wrap64_eq {x : Int} (h1 : -(2 ^ 63) ≤ x) (h2 : x < 2 ^ 63) : wrap64 x = x := by
  have hc : (2 : Int) ^ 63 + 2 ^ 63 = 2 ^ 64 := by norm_num
  have h3 : 0 ≤ x + 2 ^ 63 := by linarith
  have h4 : x + 2 ^ 63 < 2 ^ 64 := by linarith
  unfold wrap64
  rw [Int.emod_eq_of_lt h3 h4]
  ring

/-- C1: for every host whose summary fields lie in their Go machine-integer
ranges (CpuMhz, OverallCpuUsage, OverallMemoryUsage are int32, NumCpuCores
is int16, MemorySize is a nonnegative int64), the derived metrics are exact
integer arithmetic with no wrap and no rounding: totalCpu equals clock speed
times core count, freeCpu equals totalCpu minus used CPU, freeMemoryBytes
equals total memory bytes minus usedMemoryMiB times 1024 times 1024; a zero
core count or zero clock speed gives totalCpu zero (the computation is
total, no error path); and the freeCpu and freeMemory table cells are the
signed decimal rendering of those values, not clamped at zero. -/
theorem host_metrics_exact (h : HostSummary)
    (hcm : -(2 ^ 31) ≤ h.cpuMhz ∧ h.cpuMhz < 2 ^ 31)
    (hnc : -(2 ^ 15) ≤ h.numCpuCores ∧ h.numCpuCores < 2 ^ 15)
    (hcu : -(2 ^ 31) ≤ h.overallCpuUsage ∧ h.overallCpuUsage < 2 ^ 31)
    (hms : 0 ≤ h.memorySize ∧ h.memorySize < 2 ^ 63)
    (hmu : 0 ≤ h.overallMemoryUsage ∧ h.overallMemoryUsage < 2 ^ 31) :
    totalCPU h = h.cpuMhz * h.numCpuCores ∧
    freeCPU h = h.cpuMhz * h.numCpuCores - h.overallCpuUsage ∧
    freeMemory h = h.memorySize - h.overallMemoryUsage * (1024 * 1024) ∧
    (h.numCpuCores = 0 ∨ h.cpuMhz = 0 → totalCPU h = 0) ∧
    (hostRowCells h).getD 3 "" = toString (freeCPU h) ∧
    (hostRowCells h).getD 6 "" = toString (freeMemory h) := by
  obtain ⟨hcm1, hcm2⟩ := hcm
  obtain ⟨hnc1, hnc2⟩ := hnc
  obtain ⟨hcu1, hcu2⟩ := hcu
  obtain ⟨hms1, hms2⟩ := hms
  obtain ⟨hmu1, hmu2⟩ := hmu
  have habs : |h.cpuMhz * h.numCpuCores| ≤ 2 ^ 46 := by
    rw [abs_mul]
    calc |h.cpuMhz| * |h.numCpuCores| ≤ 2 ^ 31 * 2 ^ 15 := by
          exact mul_le_mul (abs_le.mpr ⟨hcm1, hcm2.le⟩) (abs_le.mpr ⟨hnc1, hnc2.le⟩)
            (abs_nonneg _) (by positivity)
      _ = 2 ^ 46 := by norm_num
  obtain ⟨hp1, hp2⟩ := abs_le.mp habs
  have ht : totalCPU h = h.cpuMhz * h.numCpuCores := by
    apply wrap64_eq
    · have : -((2 : Int) ^ 63) ≤ -(2 ^ 46) := by norm_num
      linarith
    · have : (2 : Int) ^ 46 < 2 ^ 63 := by norm_num
      linarith
  have hf : freeCPU h = h.cpuMhz * h.numCpuCores - h.overallCpuUsage := by
    unfold freeCPU
    rw [ht]
    apply wrap64_eq
    · have : -((2 : Int) ^ 63) ≤ -(2 ^ 46) - 2 ^ 31 := by norm_num
      linarith
    · have : (2 : Int) ^ 46 + 2 ^ 31 < 2 ^ 63 := by norm_num
      linarith
  have hub : usedMemBytes h = h.overallMemoryUsage * 1024 * 1024 := by
    apply wrap64_eq
    · have : (0 : Int) ≤ h.overallMemoryUsage * 1024 * 1024 := by linarith
      linarith [this]
    · have : h.overallMemoryUsage * 1024 * 1024 < 2 ^ 31 * 1024 * 1024 := by linarith
      have h2 : (2 : Int) ^ 31 * 1024 * 1024 < 2 ^ 63 := by norm_num
      linarith
  have hfm : freeMemory h = h.memorySize - h.overallMemoryUsage * (1024 * 1024) := by
    unfold freeMemory
    rw [hub]
    have heq : h.memorySize - h.overallMemoryUsage * 1024 * 1024 =
        h.memorySize - h.overallMemoryUsage * (1024 * 1024) := by ring
    rw [heq]
    apply wrap64_eq
    · have : h.overallMemoryUsage * (1024 * 1024) < 2 ^ 31 * (1024 * 1024) := by linarith
      have h2 : -((2 : Int) ^ 63) ≤ 0 - 2 ^ 31 * (1024 * 1024) := by norm_num
      linarith
    · have : (0 : Int) ≤ h.overallMemoryUsage * (1024 * 1024) := by linarith
      linarith
  refine ⟨ht, hf, hfm, ?_, rfl, rfl⟩
  rintro (h0 | h0) <;> rw [ht, h0] <;> ring

/-- Witness for host_metrics_exact at the reference host of the spec. -/
theorem host_metrics_exact_witness :
    totalCPU refHost = refHost.cpuMhz * refHost.numCpuCores ∧
    freeCPU refHost = refHost.cpuMhz * refHost.numCpuCores - refHost.overallCpuUsage ∧
    freeMemory refHost = refHost.memorySize - refHost.overallMemoryUsage * (1024 * 1024) ∧
    (refHost.numCpuCores = 0 ∨ refHost.cpuMhz = 0 → totalCPU refHost = 0) ∧
    (hostRowCells refHost).getD 3 "" = toString (freeCPU refHost) ∧
    (hostRowCells refHost).getD 6 "" = toString (freeMemory refHost) :=
  host_metrics_exact refHost (by decide) (by decide) (by decide) (by decide) (by decide)

/-- C2, counterexample: in the reference scenario the free-memory cell of
the host row is the raw decimal integer 25769803776, not the unit-scaled
form (which would be 24.00GB), contradicting the claim that the free-memory
column is rendered in a derived byte-scale form. -/
theorem host_free_memory_cell_is_raw :
    (hostRowCells refHost).getD 6 "" = "25769803776" ∧
    byteSizeString 25769803776 = "24.00GB" ∧
    ("25769803776" : String) ≠ "24.00GB" := by
  refine ⟨by decide, by decide, by decide⟩

/-- C2, amended: in the host table row for the reference scenario, used
memory (8192 MiB as bytes) and total memory are rendered unit-scaled
(8.00GB and 32.00GB), while the free-memory column is rendered as the raw
signed decimal integer 25769803776. -/
theorem host_row_reference :
    hostRowCells refHost =
      ["esx01", "3000", "10000", "7000", "8.00GB", "32.00GB", "25769803776"] := by
  decide

/-- C8: the byte-unit scaler picks the single largest unit where the scaled
value is at least one: 1073741824 bytes render as 1.00GB, zero bytes render
in the smallest-unit form 0B, and every negative value renders in the
smallest-unit form with only a leading sign (never a negative-unit label). -/
theorem byte_unit_scaling :
    byteSizeString 1073741824 = "1.00GB" ∧
    byteSizeString 0 = "0B" ∧
    ∀ b : Int, b < 0 → byteSizeString b = toString b ++ "B" := by
  refine ⟨by decide, by decide, ?_⟩
  intro b hb
  have p10 : (0 : Int) < 2 ^ 10 := by positivity
  have p20 : (0 : Int) < 2 ^ 20 := by positivity
  have p30 : (0 : Int) < 2 ^ 30 := by positivity
  have p40 : (0 : Int) < 2 ^ 40 := by positivity
  have p50 : (0 : Int) < 2 ^ 50 := by positivity
  have p60 : (0 : Int) < 2 ^ 60 := by positivity
  unfold byteSizeString
  rw [if_neg (by linarith), if_neg (by linarith), if_neg (by linarith),
    if_neg (by linarith), if_neg (by linarith), if_neg (by linarith)]

/-- Witness for byte_unit_scaling on the negative-value branch. -/
theorem byte_unit_scaling_witness :
    byteSizeString (-1024) = toString (-1024 : Int) ++ "B" :=
  byte_unit_scaling.2.2 (-1024) (by decide)

/-- Helper: an event that is not an out event never occurs among table
output events. -/
theorem not_mem_map_out {e : Event} (he : ∀ s, e ≠ Event.out s) (l : List String) :
    e ∉ l.map Event.out := by
  intro hmem
  obtain ⟨s, _, hs⟩ := List.mem_map.mp hmem
  exact he s hs.symm

/-- Helper: counting a non-out event among table output events gives
zero. -/
theorem count_map_out_eq_zero {e : Event} (he : ∀ s, e ≠ Event.out s) (l : List String) :
    (l.map Event.out).count e = 0 :=
  List.count_eq_zero.mpr (not_mem_map_out he l)

set_option maxHeartbeats 2000000 in
/-- C3: in every run and for every object kind, the number of view
destructions equals the number of successful view creations (the deferred
Destroy of a successfully created view runs exactly once on every return
path, and a view whose creation failed is never destroyed), and each kind's
view is created at most once. -/
theorem scope_release_balanced (env : Env) (o : Oracle) (k : Kind) :
    (run env o).count (Event.closeScope k) = (run env o).count (Event.openScope k) ∧
    (run env o).count (Event.openScope k) ≤ 1 := by
  have hopen : ∀ l : List String, (l.map Event.out).count (Event.openScope k) = 0 :=
    count_map_out_eq_zero (by intro s hs; cases hs)
  have hclose : ∀ l : List String, (l.map Event.out).count (Event.closeScope k) = 0 :=
    count_map_out_eq_zero (by intro s hs; cases hs)
  unfold run debugEvents hostTableEvents dsTableEvents vmTableEvents
  cases k <;> split_ifs <;>
    simp [List.count_append, List.count_cons, List.count_nil, hopen, hclose]

/-- A concrete environment for witnesses and counterexamples. -/
def env0 : Env := { url := "https://vc.example.com", user := "admin", pwd := "secret" }

/-- An oracle on which every external call succeeds and the endpoint returns
no objects. -/
def okOracle : Oracle :=
  { parseBad := false, parseErrText := "", loginOk := true, loginErrText := "",
    createHostOk := true, createHostErrText := "",
    retrieveHostOk := true, retrieveHostErrText := "",
    createDsOk := true, createDsErrText := "",
    retrieveDsOk := true, retrieveDsErrText := "",
    createVmOk := true, createVmErrText := "",
    retrieveVmOk := true, retrieveVmErrText := "",
    hosts := [], datastores := [], vms := [] }

/-- C4, counterexample: on a fully successful run the datastore view is
opened while the host view is still open (the host view destruction is a
deferred call that only runs when main returns), so it is false that each
kind's scope closes before the next kind's scope opens. -/
theorem scope_close_deferred_counterexample :
    (run env0 okOracle).findIdx (fun e => e == Event.openScope Kind.datastore) <
      (run env0 okOracle).findIdx (fun e => e == Event.closeScope Kind.host) ∧
    Event.closeScope Kind.host ∈ run env0 okOracle ∧
    Event.openScope Kind.datastore ∈ run env0 okOracle := by
  refine ⟨by decide, by decide, by decide⟩

/-- True of the scope and retrieval events only. -/
def isScopeEvent (e : Event) : Bool :=
  match e with
  | Event.openScope _ => true
  | Event.fetch _ => true
  | Event.closeScope _ => true
  | _ => false

/-- The subsequence of view-lifecycle and retrieval events of a trace. -/
def scopeFetchTrace (tr : List Event) : List Event := tr.filter isScopeEvent

theorem scopeFetchTrace_map_out (l : List String) :
    (l.map Event.out).filter isScopeEvent = [] := by
  induction l with
  | nil => rfl
  | cons s t ih => simp [isScopeEvent, ih]

/-- C4, amended: on a fully successful run the three kinds are processed
strictly in order host, datastore, virtual machine, each opened and fetched
before the next is opened, but every Close Scope is deferred to the end of
the run: all three closes happen after the last kind's work, in reverse
order (vm, datastore, host), so all three scopes are simultaneously open
before any is closed. -/
theorem pipeline_scope_order (env : Env) (o : Oracle)
    (hu : env.url ≠ "") (hp : o.parseBad = false) (h3 : o.loginOk = true)
    (h4 : o.createHostOk = true) (h5 : o.retrieveHostOk = true)
    (h6 : o.createDsOk = true) (h7 : o.retrieveDsOk = true)
    (h8 : o.createVmOk = true) (h9 : o.retrieveVmOk = true) :
    scopeFetchTrace (run env o) =
      [Event.openScope Kind.host, Event.fetch Kind.host,
       Event.openScope Kind.datastore, Event.fetch Kind.datastore,
       Event.openScope Kind.vm, Event.fetch Kind.vm,
       Event.closeScope Kind.vm, Event.closeScope Kind.datastore,
       Event.closeScope Kind.host] := by
  unfold run scopeFetchTrace debugEvents hostTableEvents dsTableEvents vmTableEvents
  simp [hu, hp, h3, h4, h5, h6, h7, h8, h9, List.filter_append,
    scopeFetchTrace_map_out, isScopeEvent]

/-- Witness for pipeline_scope_order on a concrete all-success run. -/
theorem pipeline_scope_order_witness :
    scopeFetchTrace (run env0 okOracle) =
      [Event.openScope Kind.host, Event.fetch Kind.host,
       Event.openScope Kind.datastore, Event.fetch Kind.datastore,
       Event.openScope Kind.vm, Event.fetch Kind.vm,
       Event.closeScope Kind.vm, Event.closeScope Kind.datastore,
       Event.closeScope Kind.host] :=
  pipeline_scope_order env0 okOracle (by decide) rfl rfl rfl rfl rfl rfl rfl rfl

/-- C10: every session the program ever passes to Login has Insecure set to
true; no environment value or endpoint behavior can produce a session with
certificate verification enabled. -/
theorem session_always_insecure (env : Env) (o : Oracle) (s : CacheSession)
    (hs : Event.login s ∈ run env o) : s.insecure = true := by
  unfold run debugEvents hostTableEvents dsTableEvents vmTableEvents at hs
  split_ifs at hs <;> simp at hs <;> (rw [hs]; rfl)

/-- Witness for session_always_insecure: the login event of a successful
concrete run carries an insecure session. -/
theorem session_always_insecure_witness : (mkSession env0).insecure = true :=
  session_always_insecure env0 okOracle (mkSession env0) (by decide)

/-- An oracle identical to okOracle except that login fails. -/
def loginFailOracle : Oracle := { okOracle with loginOk := false, loginErrText := "ServerFaultCode: auth" }

/-- C5: any authentication, view-creation or retrieval failure ends the run
immediately, with no retry: the complete trace of the run is the work done
so far, one diagnostic written to standard output (every write of the
program goes to standard output), and the deferred destruction of the views
already created; no later kind is opened, fetched or rendered.  The seven
conjuncts cover the login failure, and the creation and retrieval failures
of each of the three kinds. -/
theorem failure_aborts_run (env : Env) (o : Oracle)
    (hu : env.url ≠ "") (hp : o.parseBad = false) :
    (o.loginOk = false →
      run env o = debugEvents env ++
        [Event.login (mkSession env), Event.out (loginFailText o)]) ∧
    (o.loginOk = true → o.createHostOk = false →
      run env o = debugEvents env ++
        [Event.login (mkSession env), Event.out "Log in successful\n",
         Event.out (createHostFailText o)]) ∧
    (o.loginOk = true → o.createHostOk = true → o.retrieveHostOk = false →
      run env o = debugEvents env ++
        [Event.login (mkSession env), Event.out "Log in successful\n",
         Event.openScope Kind.host, Event.fetch Kind.host,
         Event.out (retrieveHostFailText o), Event.closeScope Kind.host]) ∧
    (o.loginOk = true → o.createHostOk = true → o.retrieveHostOk = true →
      o.createDsOk = false →
      run env o = debugEvents env ++
        [Event.login (mkSession env), Event.out "Log in successful\n",
         Event.openScope Kind.host, Event.fetch Kind.host] ++
        hostTableEvents o.hosts ++
        [Event.out (createDsFailText o), Event.closeScope Kind.host]) ∧
    (o.loginOk = true → o.createHostOk = true → o.retrieveHostOk = true →
      o.createDsOk = true → o.retrieveDsOk = false →
      run env o = debugEvents env ++
        [Event.login (mkSession env), Event.out "Log in successful\n",
         Event.openScope Kind.host, Event.fetch Kind.host] ++
        hostTableEvents o.hosts ++
        [Event.openScope Kind.datastore, Event.fetch Kind.datastore,
         Event.out (retrieveDsFailText o), Event.closeScope Kind.datastore,
         Event.closeScope Kind.host]) ∧
    (o.loginOk = true → o.createHostOk = true → o.retrieveHostOk = true →
      o.createDsOk = true → o.retrieveDsOk = true → o.createVmOk = false →
      run env o = debugEvents env ++
        [Event.login (mkSession env), Event.out "Log in successful\n",
         Event.openScope Kind.host, Event.fetch Kind.host] ++
        hostTableEvents o.hosts ++
        [Event.openScope Kind.datastore, Event.fetch Kind.datastore] ++
        dsTableEvents o.datastores ++
        [Event.out (createVmFailText o), Event.closeScope Kind.datastore,
         Event.closeScope Kind.host]) ∧
    (o.loginOk = true → o.createHostOk = true → o.retrieveHostOk = true →
      o.createDsOk = true → o.retrieveDsOk = true → o.createVmOk = true →
      o.retrieveVmOk = false →
      run env o = debugEvents env ++
        [Event.login (mkSession env), Event.out "Log in successful\n",
         Event.openScope Kind.host, Event.fetch Kind.host] ++
        hostTableEvents o.hosts ++
        [Event.openScope Kind.datastore, Event.fetch Kind.datastore] ++
        dsTableEvents o.datastores ++
        [Event.openScope Kind.vm, Event.fetch Kind.vm,
         Event.out (retrieveVmFailText o), Event.closeScope Kind.vm,
         Event.closeScope Kind.datastore, Event.closeScope Kind.host]) := by
  refine ⟨?_, ?_, ?_, ?_, ?_, ?_, ?_⟩ <;> intros <;>
    simp_all [run]

/-- Witness for failure_aborts_run on a concrete login failure. -/
theorem failure_aborts_run_witness :
    run env0 loginFailOracle = debugEvents env0 ++
      [Event.login (mkSession env0), Event.out (loginFailText loginFailOracle)] :=
  (failure_aborts_run env0 loginFailOracle (by decide) rfl).1 rfl

theorem outputs_map_out (l : List String) : outputs (l.map Event.out) = l := by
  induction l with
  | nil => rfl
  | cons s t ih => simp [outputs] at ih ⊢; exact ih

theorem outputs_append (a b : List Event) : outputs (a ++ b) = outputs a ++ outputs b := by
  unfold outputs
  exact List.filterMap_append a b _

theorem outputs_out_cons (s : String) (tr : List Event) :
    outputs (Event.out s :: tr) = s :: outputs tr := rfl

theorem outputs_login_cons (c : CacheSession) (tr : List Event) :
    outputs (Event.login c :: tr) = outputs tr := rfl

theorem outputs_open_cons (k : Kind) (tr : List Event) :
    outputs (Event.openScope k :: tr) = outputs tr := rfl

theorem outputs_fetch_cons (k : Kind) (tr : List Event) :
    outputs (Event.fetch k :: tr) = outputs tr := rfl

theorem outputs_close_cons (k : Kind) (tr : List Event) :
    outputs (Event.closeScope k :: tr) = outputs tr := rfl

theorem outputs_nil : outputs [] = [] := rfl

theorem outputs_map_out_comp {α : Type} (g : α → String) (l : List α) :
    outputs (l.map (Event.out ∘ g)) = l.map g := by
  induction l with
  | nil => rfl
  | cons a t ih =>
    rw [List.map_cons, List.map_cons]
    show outputs (Event.out (g a) :: _) = g a :: _
    rw [outputs_out_cons, ih]

/-- C6: on a fully successful run the standard output is, in order: the
three DEBUG lines, the login confirmation, then exactly three tables in the
fixed order hosts, datastores, virtual machines, each preceded by its title
line and separator line and its fixed column-header line (host: name, used
CPU, total CPU, free CPU, used memory, total memory, free memory; datastore:
name, type, capacity, free; VM: name, guest full name), with one row per
returned object in the order the endpoint returned them (List.map preserves
order; nothing is sorted). -/
theorem success_run_output (env : Env) (o : Oracle)
    (hu : env.url ≠ "") (hp : o.parseBad = false) (h3 : o.loginOk = true)
    (h4 : o.createHostOk = true) (h5 : o.retrieveHostOk = true)
    (h6 : o.createDsOk = true) (h7 : o.retrieveDsOk = true)
    (h8 : o.createVmOk = true) (h9 : o.retrieveVmOk = true) :
    outputs (run env o) =
      ["DEBUG: vc is " ++ env.url ++ "\n",
       "DEBUG: user is " ++ env.user ++ "\n",
       "DEBUG: password is " ++ env.pwd ++ "\n",
       "Log in successful\n",
       "\n*** Host Information ***\n", "------------------------\n\n", hostHeaderText] ++
      o.hosts.map hostRowText ++
      ["\n*** Datastore Information ***\n", "------------------------------\n\n", dsHeaderText] ++
      o.datastores.map dsRowText ++
      ["\n*** VM Information ***\n", "-----------------------\n\n", vmHeaderText] ++
      o.vms.map vmRowText ++ ["\n"] := by
  unfold run debugEvents hostTableEvents dsTableEvents vmTableEvents
  simp [hu, hp, h3, h4, h5, h6, h7, h8, h9, outputs_append, outputs_out_cons,
    outputs_login_cons, outputs_open_cons, outputs_fetch_cons, outputs_close_cons,
    outputs_nil, outputs_map_out, outputs_map_out_comp, hostTableStrings,
    dsTableStrings, vmTableStrings]

/-- A concrete successful oracle returning one host, one datastore and one
VM. -/
def dataOracle : Oracle :=
  { okOracle with
    hosts := [refHost],
    datastores := [{ name := "ds1", type := "vsan", capacity := 1099511627776,
                     freeSpace := 549755813888 }],
    vms := [{ name := "vm1", guestFullName := "Ubuntu Linux (64-bit)" }] }

/-- Witness for success_run_output on a concrete run with one object of each
kind. -/
theorem success_run_output_witness :
    outputs (run env0 dataOracle) =
      ["DEBUG: vc is " ++ env0.url ++ "\n",
       "DEBUG: user is " ++ env0.user ++ "\n",
       "DEBUG: password is " ++ env0.pwd ++ "\n",
       "Log in successful\n",
       "\n*** Host Information ***\n", "------------------------\n\n", hostHeaderText] ++
      dataOracle.hosts.map hostRowText ++
      ["\n*** Datastore Information ***\n", "------------------------------\n\n", dsHeaderText] ++
      dataOracle.datastores.map dsRowText ++
      ["\n*** VM Information ***\n", "-----------------------\n\n", vmHeaderText] ++
      dataOracle.vms.map vmRowText ++ ["\n"] :=
  success_run_output env0 dataOracle (by decide) rfl rfl rfl rfl rfl rfl rfl rfl

/-- C7: a missing endpoint URL (empty GOVMOMI_URL) or an unparseable one
stops the run after the URL diagnostic: no login is ever attempted, and the
only standard-output text is the three DEBUG lines plus the URL
diagnostics; no table text is printed.  On the missing-URL path the
termination is the nil-pointer crash of line 105 (the nil check of line 96
prints but does not return); on the unparseable path main returns after the
line-101 diagnostic. -/
theorem url_failure_stops_before_login (env : Env) (o : Oracle) :
    (env.url = "" →
      run env o = debugEvents env ++ [Event.out urlNilText, Event.crash] ∧
      (∀ s, Event.login s ∉ run env o) ∧
      outputs (run env o) =
        ["DEBUG: vc is " ++ env.url ++ "\n",
         "DEBUG: user is " ++ env.user ++ "\n",
         "DEBUG: password is " ++ env.pwd ++ "\n", urlNilText]) ∧
    (env.url ≠ "" → o.parseBad = true →
      run env o = debugEvents env ++
        [Event.out urlNilText, Event.out (parseFailText o)] ∧
      (∀ s, Event.login s ∉ run env o) ∧
      outputs (run env o) =
        ["DEBUG: vc is " ++ env.url ++ "\n",
         "DEBUG: user is " ++ env.user ++ "\n",
         "DEBUG: password is " ++ env.pwd ++ "\n", urlNilText, parseFailText o]) := by
  constructor
  · intro h
    refine ⟨by simp [run, h, debugEvents], ?_, by simp [run, h, debugEvents, outputs]⟩
    intro s
    simp [run, h, debugEvents]
  · intro h hb
    refine ⟨by simp [run, h, hb, debugEvents], ?_, by simp [run, h, hb, debugEvents, outputs]⟩
    intro s
    simp [run, h, hb, debugEvents]

/-- An environment whose GOVMOMI_URL value is missing. -/
def emptyUrlEnv : Env := { url := "", user := "admin", pwd := "secret" }

/-- Witness for url_failure_stops_before_login on the missing-URL path. -/
theorem url_failure_stops_before_login_witness :
    run emptyUrlEnv okOracle =
      debugEvents emptyUrlEnv ++ [Event.out urlNilText, Event.crash] :=
  ((url_failure_stops_before_login emptyUrlEnv okOracle).1 rfl).1

/-- C9: the first three writes of every run print the endpoint URL, the user
name and the password in cleartext to standard output, before the session
login; consequently two runs that differ only in the password value produce
different output (the password is observable in the program output). -/
theorem password_printed_cleartext :
    (∀ (env : Env) (o : Oracle),
      (run env o).take 3 =
        [Event.out ("DEBUG: vc is " ++ env.url ++ "\n"),
         Event.out ("DEBUG: user is " ++ env.user ++ "\n"),
         Event.out ("DEBUG: password is " ++ env.pwd ++ "\n")] ∧
      ∀ s, Event.login s ∉ (run env o).take 3) ∧
    (∀ (env1 env2 : Env) (o : Oracle),
      env1.url = env2.url → env1.user = env2.user → env1.pwd ≠ env2.pwd →
      run env1 o ≠ run env2 o) := by
  have htake : ∀ (env : Env) (o : Oracle),
      (run env o).take 3 =
        [Event.out ("DEBUG: vc is " ++ env.url ++ "\n"),
         Event.out ("DEBUG: user is " ++ env.user ++ "\n"),
         Event.out ("DEBUG: password is " ++ env.pwd ++ "\n")] := by
    intro env o
    unfold run debugEvents
    simp
  constructor
  · intro env o
    refine ⟨htake env o, ?_⟩
    intro s
    rw [htake env o]
    simp
  · intro env1 env2 o _ _ hpwd heq
    apply hpwd
    have h3 := congrArg (List.take 3) heq
    rw [htake env1 o, htake env2 o] at h3
    simp only [List.cons.injEq, Event.out.injEq, and_true] at h3
    have hline := h3.2.2
    have hdata := congrArg String.data hline
    simp only [String.data_append, List.append_assoc] at hdata
    have h1 := List.append_cancel_left hdata
    have h2 := List.append_cancel_right h1
    exact String.ext h2

/-- Witness for password_printed_cleartext: two concrete runs differing only
in the password have different traces. -/
theorem password_printed_cleartext_witness :
    run { url := "https://vc", user := "admin", pwd := "alpha" } okOracle ≠
      run { url := "https://vc", user := "admin", pwd := "beta" } okOracle :=
  password_printed_cleartext.2 _ _ okOracle rfl rfl (by decide)
